import Mathlib

/-!
Verification of the cbpro-trader trade engine
(`daemon/engine/TradeEngine.py`) via a shallow embedding.

Modelling conventions, applied throughout:
* Python `Decimal` values are embedded as exact rationals (`ℚ`).  `Decimal`
  addition, subtraction and multiplication are exact at the scales used by the
  program; division may round at the 28th significant digit, which is
  immaterial to every property checked here.
* `Decimal.quantize(..., rounding=ROUND_DOWN)` rounds toward zero; it is
  embedded as `quantizeDown` below.
* Exchange and order-book observations (best bid/ask, balances, responses to
  order placements, the concurrently-maintained open-order list) are inputs
  from the environment; they are passed in as explicit environment records.
* `time.time()`-gated behaviour (the one-second polling gates) is modelled by
  boolean environment oracles, since wall-clock time is an external input.
-/

namespace CbproTrader

/-- Sides of an order. -/
inductive Side
  | buy
  | sell
deriving DecidableEq

/-- Calls issued to the authenticated exchange client (`auth_client`). -/
inductive ExchAction
  | cancelAll (product_id : String)
  | marketBuy (product_id : String) (funds : ℚ)
  | marketSell (product_id : String) (size : ℚ)
  | limitOrder (product_id : String) (side : Side) (size : ℚ) (price : ℚ) (postOnly : Bool)
  | cancelOrder (oid : Nat)
  | getOrder (oid : Nat)
deriving DecidableEq

/-- Observable events of a chase: exchange calls and writes to the product's
`order_in_progress` flag. -/
inductive Ev
  | act (a : ExchAction)
  | setOip (b : Bool)
deriving DecidableEq

/-- Fold step computing the last `order_in_progress` write of a trace. -/
def oipUpd (acc : Option Bool) (e : Ev) : Option Bool :=
  match e with
  | Ev.setOip b => some b
  | _ => acc

/-- The last value written to `order_in_progress` in an event trace
(`none` when the trace writes the flag nowhere). -/
def lastOip (l : List Ev) : Option Bool :=
  l.foldl oipUpd none

/-- `Decimal(money).quantize(Decimal(10^-exp), rounding=ROUND_DOWN)`:
truncation toward zero at `exp` decimal places. -/
def quantizeDown (exp : Nat) (q : ℚ) : ℚ :=
  let scaled := q * (10 : ℚ) ^ exp
  (if 0 ≤ scaled then (⌊scaled⌋ : ℚ) else (⌈scaled⌉ : ℚ)) / (10 : ℚ) ^ exp

/-- `TradeEngine.round_fiat`: quantize to 2 decimal places, `ROUND_DOWN`. -/
def round_fiat (money : ℚ) : ℚ := quantizeDown 2 money

/-- `TradeEngine.round_coin`: quantize to 8 decimal places, `ROUND_DOWN`. -/
def round_coin (money : ℚ) : ℚ := quantizeDown 8 money

/-- An exchange order response dictionary, restricted to the keys the engine
reads (`status`, `message`, `id`, `price`); absent keys are `none`. -/
structure OrderResp where
  status : Option String
  message : Option String
  oid : Option Nat
  price : Option ℚ
deriving DecidableEq

/-- The `{'status': 'done'}` dictionary `place_buy`/`place_sell` return when
the computed size is below the product minimum. -/
def doneResp : OrderResp :=
  { status := some "done", message := none, oid := none, price := none }

/-- `TradeEngine.place_buy`, as a function of the values it reads:
the quote-currency balance `quoted`, the best ask `ask`, the product's
`quote_increment` and `min_size`, the `partial` fraction `part`, and the
exchange's response `resp` to the limit order if one is placed.  Returns the
`ret` dictionary and the exchange calls issued.  (The append of a
pending/open response onto `product.open_orders` is not tracked here: the
open-order list is concurrently rewritten by the `update_orders` poller and
is therefore environment-observed in the chase model.) -/
def place_buy (product_id : String) (quote_increment min_size : ℚ)
    (quoted ask : ℚ) (part : ℚ) (resp : OrderResp) : OrderResp × List Ev :=
  let bid := ask - quote_increment
  let amount0 := round_coin (quoted * part / bid)
  -- size fallback: retry with the full quote amount when 50% is too small
  let amount := if amount0 < min_size then round_coin (quoted / (ask - quote_increment)) else amount0
  if min_size ≤ amount then
    (resp, [Ev.act (ExchAction.limitOrder product_id Side.buy amount bid true)])
  else
    (doneResp, [])

/-- `TradeEngine.place_sell`, analogously.  Note the asymmetry with
`place_buy`: the full-amount fallback is the raw base-currency balance,
not re-truncated. -/
def place_sell (product_id : String) (quote_increment min_size : ℚ)
    (base bid : ℚ) (part : ℚ) (resp : OrderResp) : OrderResp × List Ev :=
  let amount0 := round_coin (base * part)
  let amount := if amount0 < min_size then base else amount0
  let ask := bid + quote_increment
  if min_size ≤ amount then
    (resp, [Ev.act (ExchAction.limitOrder product_id Side.sell amount ask true)])
  else
    (doneResp, [])

/-- A sample exchange acknowledgement used in concrete evaluations. -/
def respOpen : OrderResp :=
  { status := some "open", message := none, oid := some 1, price := some (4999999/100) }

/-- C8: `round_fiat` truncates toward zero to 2 decimal places and
`round_coin` to 8; on non-negative inputs the result is the floor at that
scale and never exceeds the input; 10.129 maps to 10.12, 0.123456789 maps to
0.12345678, and a sub-tick remainder is never rounded up. -/
theorem C8_rounding_truncates :
    (∀ q : ℚ, 0 ≤ q →
      round_fiat q = (⌊q * 10 ^ 2⌋ : ℚ) / 10 ^ 2 ∧ round_fiat q ≤ q) ∧
    (∀ q : ℚ, 0 ≤ q →
      round_coin q = (⌊q * 10 ^ 8⌋ : ℚ) / 10 ^ 8 ∧ round_coin q ≤ q) ∧
    round_fiat (10129/1000) = 1012/100 ∧
    round_coin (123456789/1000000000) = 12345678/100000000 ∧
    round_coin (19/1000000000) = 1/100000000 := by
  refine ⟨?_, ?_, by norm_num [round_fiat, quantizeDown],
    by norm_num [round_coin, quantizeDown], by norm_num [round_coin, quantizeDown]⟩
  · intro q hq
    have hsc : (0 : ℚ) ≤ q * 10 ^ 2 := by positivity
    constructor
    · simp [round_fiat, quantizeDown, hsc]
    · have hfl : ((⌊q * 10 ^ 2⌋ : ℚ)) ≤ q * 10 ^ 2 := Int.floor_le _
      have h2 : (0 : ℚ) < 10 ^ 2 := by norm_num
      simp only [round_fiat, quantizeDown, hsc, if_pos]
      calc (⌊q * 10 ^ 2⌋ : ℚ) / 10 ^ 2 ≤ (q * 10 ^ 2) / 10 ^ 2 := by gcongr
        _ = q := by field_simp
  · intro q hq
    have hsc : (0 : ℚ) ≤ q * 10 ^ 8 := by positivity
    constructor
    · simp [round_coin, quantizeDown, hsc]
    · have hfl : ((⌊q * 10 ^ 8⌋ : ℚ)) ≤ q * 10 ^ 8 := Int.floor_le _
      have h2 : (0 : ℚ) < 10 ^ 8 := by norm_num
      simp only [round_coin, quantizeDown, hsc, if_pos]
      calc (⌊q * 10 ^ 8⌋ : ℚ) / 10 ^ 8 ≤ (q * 10 ^ 8) / 10 ^ 8 := by gcongr
        _ = q := by field_simp

/-- One period's indicator mapping (`indicators[cur_period.name]`), restricted
to the keys `determine_trades` reads. -/
structure IndicatorSet where
  adx : ℚ
  obv : ℚ
  obv_ema : ℚ
  stoch_slowk : ℚ
  stoch_slowd : ℚ
deriving DecidableEq

/-- One iteration of the `for cur_period in period_list` loop of
`determine_trades` (lines 295-305): fold the running
`(new_buy_flag, new_sell_flag)` pair over one period's indicators. -/
def signalStep (fl : Bool × Bool) (ind : IndicatorSet) : Bool × Bool :=
  if ind.adx > 25 then
    -- Trending strategy
    (fl.1 && decide (ind.obv > ind.obv_ema),
     fl.2 || decide (ind.obv < ind.obv_ema))
  else
    -- Ranging strategy
    (fl.1 && (decide (ind.stoch_slowk > ind.stoch_slowd) && decide (ind.stoch_slowk < 50)),
     fl.2 || (decide (ind.stoch_slowk < ind.stoch_slowd) || decide (ind.stoch_slowk > 50)))

/-- The period loop of `determine_trades`: starts from
`new_buy_flag = True`, `new_sell_flag = False` and folds `signalStep`
over the configured periods (identified by name). -/
def evalSignals (period_list : List String) (indicators : String → IndicatorSet) :
    Bool × Bool :=
  period_list.foldl (fun fl p => signalStep fl (indicators p)) (true, false)

/-- A single period's buy condition, written as the spec states it
(trending rule for ADX > 25, ranging rule otherwise). -/
def specBuyCond (ind : IndicatorSet) : Bool :=
  if ind.adx > 25 then decide (ind.obv > ind.obv_ema)
  else decide (ind.stoch_slowk > ind.stoch_slowd) && decide (ind.stoch_slowk < 50)

/-- A single period's sell condition, written as the spec states it. -/
def specSellCond (ind : IndicatorSet) : Bool :=
  if ind.adx > 25 then decide (ind.obv < ind.obv_ema)
  else decide (ind.stoch_slowk < ind.stoch_slowd) || decide (ind.stoch_slowk > 50)

lemma signalStep_eq (fl : Bool × Bool) (ind : IndicatorSet) :
    signalStep fl ind = (fl.1 && specBuyCond ind, fl.2 || specSellCond ind) := by
  unfold signalStep specBuyCond specSellCond
  split <;> rfl

lemma evalSignals_foldl (indicators : String → IndicatorSet) :
    ∀ (l : List String) (b s : Bool),
      l.foldl (fun fl p => signalStep fl (indicators p)) (b, s) =
        (b && l.all (fun p => specBuyCond (indicators p)),
         s || l.any (fun p => specSellCond (indicators p))) := by
  intro l
  induction l with
  | nil => intro b s; simp
  | cons p l ih =>
    intro b s
    rw [List.foldl_cons, signalStep_eq, ih]
    simp [Bool.and_assoc, Bool.or_assoc]

lemma evalSignals_eq (period_list : List String) (indicators : String → IndicatorSet) :
    evalSignals period_list indicators =
      (period_list.all (fun p => specBuyCond (indicators p)),
       period_list.any (fun p => specSellCond (indicators p))) := by
  simpa using evalSignals_foldl indicators period_list true false

/-- Within one period, the buy condition and the sell condition cannot hold
simultaneously. -/
lemma spec_conds_exclusive (ind : IndicatorSet) :
    ¬(specBuyCond ind = true ∧ specSellCond ind = true) := by
  unfold specBuyCond specSellCond
  split
  · simp only [decide_eq_true_eq]
    rintro ⟨h1, h2⟩
    exact absurd h2 (not_lt.mpr h1.le)
  · simp only [Bool.and_eq_true, Bool.or_eq_true, decide_eq_true_eq]
    rintro ⟨⟨hkd, hk50⟩, h⟩
    rcases h with h | h
    · exact absurd h (not_lt.mpr hkd.le)
    · exact absurd h (not_lt.mpr hk50.le)

/-- The period-combined buy and sell intents are never both true. -/
lemma evalSignals_exclusive (period_list : List String)
    (indicators : String → IndicatorSet) :
    ¬((evalSignals period_list indicators).1 = true ∧
      (evalSignals period_list indicators).2 = true) := by
  rw [evalSignals_eq]
  rintro ⟨hb, hs⟩
  simp only [List.all_eq_true] at hb
  simp only [List.any_eq_true] at hs
  obtain ⟨p, hp, hsell⟩ := hs
  exact spec_conds_exclusive (indicators p) ⟨hb p hp, hsell⟩

/-- C2: for any non-empty period list, the period loop of `determine_trades`
computes the buy intent as the AND over all periods of that period's buy
condition and the sell intent as the OR over all periods of that period's
sell condition, where a period with ADX > 25 uses the trending rule
(buy: OBV > OBV_EMA; sell: OBV < OBV_EMA) and a period with ADX ≤ 25 uses
the ranging rule (buy: %K > %D and %K < 50; sell: %K < %D or %K > 50). -/
theorem C2_signal_combination (period_list : List String)
    (indicators : String → IndicatorSet) (hne : period_list ≠ []) :
    evalSignals period_list indicators =
      (period_list.all (fun p => specBuyCond (indicators p)),
       period_list.any (fun p => specSellCond (indicators p))) :=
  evalSignals_eq period_list indicators

/-- Witness for C2 at a concrete two-period input: a trending buy period and
a ranging buy period combine to buy intent true, sell intent false. -/
theorem C2_signal_combination_witness :
    evalSignals ["15min", "1hour"]
      (fun p => if p = "15min" then
          { adx := 30, obv := 10, obv_ema := 5, stoch_slowk := 0, stoch_slowd := 0 }
        else
          { adx := 10, obv := 0, obv_ema := 0, stoch_slowk := 40, stoch_slowd := 20 }) =
      (true, false) := by
  rw [C2_signal_combination _ _ (by simp)]
  decide

/-- The per-currency balance fields of the engine
(`self.btc`, `self.bch`, `self.eth`, `self.ltc`, `self.fiat`). -/
structure Balances where
  btc : ℚ
  bch : ℚ
  eth : ℚ
  ltc : ℚ
  fiat : ℚ
deriving DecidableEq

/-- Per-product mutable state (`Product`), restricted to the fields
`determine_trades` reads or writes. -/
structure ProductState where
  product_id : String
  min_size : ℚ
  quote_increment : ℚ
  buy_flag : Bool
  sell_flag : Bool
  order_in_progress : Bool
  open_orders : List Nat
  last_signal_switch : Option ℚ
deriving DecidableEq

/-- Engine state relevant to `determine_trades`. -/
structure Engine where
  products : List ProductState
  fiat_currency : String
  is_live : Bool
  balances : Balances
deriving DecidableEq

/-- `TradeEngine.get_base_currency_from_product_id` (the per-currency
dispatch; `none` embeds the implicit Python `return None` for an unknown
product id, on which the caller would crash). -/
def get_base_currency_from_product_id (b : Balances) : String → Option ℚ
  | "BTC-USD" => some b.btc
  | "BCH-USD" => some b.bch
  | "BCH-EUR" => some b.bch
  | "BCH-BTC" => some b.bch
  | "BTC-EUR" => some b.btc
  | "ETH-USD" => some b.eth
  | "ETH-EUR" => some b.eth
  | "LTC-USD" => some b.ltc
  | "LTC-EUR" => some b.ltc
  | "ETH-BTC" => some b.eth
  | "LTC-BTC" => some b.ltc
  | _ => none

/-- `TradeEngine.get_quoted_currency_from_product_id`. -/
def get_quoted_currency_from_product_id (b : Balances) : String → Option ℚ
  | "BTC-USD" => some b.fiat
  | "BCH-USD" => some b.fiat
  | "BCH-EUR" => some b.fiat
  | "BCH-BTC" => some b.btc
  | "BTC-EUR" => some b.fiat
  | "ETH-USD" => some b.fiat
  | "ETH-EUR" => some b.fiat
  | "LTC-USD" => some b.fiat
  | "LTC-EUR" => some b.fiat
  | "ETH-BTC" => some b.btc
  | "LTC-BTC" => some b.btc
  | _ => none

/-- `TradeEngine.get_product_by_product_id`: first product with the given id,
`none` otherwise. -/
def get_product_by_product_id (ps : List ProductState) (pid : String) :
    Option ProductState :=
  ps.find? (fun p => p.product_id == pid)

/-- Replace the first product whose id matches (the functional counterpart of
mutating the object `get_product_by_product_id` returned). -/
def updateFirst (ps : List ProductState) (pid : String) (q : ProductState) :
    List ProductState :=
  match ps with
  | [] => []
  | p :: rest => if p.product_id == pid then q :: rest else p :: updateFirst rest pid q

/-- External inputs consumed by one `determine_trades` call: the balances
produced by `update_amounts` (the one-second staleness gate makes the repeated
calls within one invocation idempotent, so a single refreshed snapshot
suffices), the best ask read at line 319, and the current wall-clock time. -/
structure DTEnv where
  refreshed : Balances
  ask : ℚ
  now : ℚ
deriving DecidableEq

/-- Worker threads started by `determine_trades`. -/
inductive DTAction
  | startBuy (product_id : String)
  | startSell (product_id : String)
deriving DecidableEq

/-- Lines 293-311 of `determine_trades`: the period fold followed by the
cross-pair gating for the BTC-quoted products.  `none` embeds a crash on a
missing gating product (Python `AttributeError` on `None`). -/
def computeIntent (products : List ProductState) (fiat : String) (pid : String)
    (period_list : List String) (indicators : String → IndicatorSet) :
    Option (Bool × Bool) :=
  let fl := evalSignals period_list indicators
  if pid = "LTC-BTC" ∨ pid = "ETH-BTC" then
    match get_product_by_product_id products (pid.take 3 ++ "-" ++ fiat) with
    | none => none
    | some cp =>
      match get_product_by_product_id products ("BTC-" ++ fiat) with
      | none => none
      | some bf => some (fl.1 && cp.buy_flag, fl.2 && bf.buy_flag)
  else some fl

/-- `TradeEngine.determine_trades` as a state transformer.  All
`update_amounts` calls inside one invocation are represented by the single
refreshed balance snapshot `env.refreshed` (they only write the balance
fields, and the one-second gate makes the repeats no-ops).  Returns the
post-call engine and the worker threads started; `none` embeds an uncaught
Python exception (lookup of an unknown product id). -/
def determine_trades (eng : Engine) (pid : String) (period_list : List String)
    (indicators : String → IndicatorSet) (env : DTEnv) :
    Option (Engine × List DTAction) :=
  if eng.is_live then
    match get_base_currency_from_product_id env.refreshed pid with
    | none => none
    | some amount_of_coin =>
      match get_product_by_product_id eng.products pid with
      | none => none
      | some product =>
        match computeIntent eng.products eng.fiat_currency pid period_list indicators with
        | none => none
        | some fl =>
          if fl.1 then
            -- buy branch (lines 313-324)
            let product1 : ProductState := { product with
              last_signal_switch :=
                if product.sell_flag then some env.now else product.last_signal_switch,
              sell_flag := false, buy_flag := true }
            match get_quoted_currency_from_product_id env.refreshed pid with
            | none => none
            | some amount0 =>
              let amount := round_coin (amount0 / (env.ask - product.quote_increment))
              let acts := if product.min_size ≤ amount ∧ product.order_in_progress = false
                          then [DTAction.startBuy pid] else []
              some ({ eng with balances := env.refreshed,
                               products := updateFirst eng.products pid product1 }, acts)
          else if fl.2 then
            -- sell branch (lines 325-333)
            let product1 : ProductState := { product with
              last_signal_switch :=
                if product.buy_flag then some env.now else product.last_signal_switch,
              buy_flag := false, sell_flag := true }
            let acts := if product.min_size ≤ amount_of_coin ∧ product.order_in_progress = false
                        then [DTAction.startSell pid] else []
            some ({ eng with balances := env.refreshed,
                             products := updateFirst eng.products pid product1 }, acts)
          else
            -- neither (lines 334-336)
            let product1 : ProductState := { product with
              buy_flag := false, sell_flag := false }
            some ({ eng with balances := env.refreshed,
                             products := updateFirst eng.products pid product1 }, [])
  else
    some ({ eng with balances := env.refreshed }, [])

lemma get_product_updateFirst (pid : String) (q : ProductState)
    (hq : q.product_id = pid) :
    ∀ ps : List ProductState, (get_product_by_product_id ps pid).isSome →
      get_product_by_product_id (updateFirst ps pid q) pid = some q := by
  intro ps
  induction ps with
  | nil => simp [get_product_by_product_id]
  | cons a rest ih =>
    intro hsome
    by_cases h : a.product_id = pid
    · simp [get_product_by_product_id, updateFirst, h, hq]
    · have hb : (a.product_id == pid) = false := by simp [h]
      simp only [get_product_by_product_id, updateFirst, hb, if_neg, Bool.false_eq_true,
        List.find?_cons_of_neg, not_false_iff] at hsome ⊢
      exact ih hsome

/-- The gated intents also never have buy and sell simultaneously true. -/
lemma computeIntent_exclusive (products : List ProductState) (fiat pid : String)
    (period_list : List String) (indicators : String → IndicatorSet)
    (fl : Bool × Bool)
    (hfl : computeIntent products fiat pid period_list indicators = some fl) :
    ¬(fl.1 = true ∧ fl.2 = true) := by
  rintro ⟨h1, h2⟩
  unfold computeIntent at hfl
  split at hfl
  · cases hcp : get_product_by_product_id products (pid.take 3 ++ "-" ++ fiat) with
    | none => simp [hcp] at hfl
    | some cp =>
      simp only [hcp] at hfl
      cases hbf : get_product_by_product_id products ("BTC-" ++ fiat) with
      | none => simp [hbf] at hfl
      | some bf =>
        simp only [hbf, Option.some.injEq] at hfl
        subst hfl
        simp only [Bool.and_eq_true] at h1 h2
        exact evalSignals_exclusive period_list indicators ⟨h1.1, h2.1⟩
  · have heq := Option.some.inj hfl
    subst heq
    exact evalSignals_exclusive period_list indicators ⟨h1, h2⟩

/-- Branch analysis of `determine_trades` in live mode: the post-state flags
equal the computed intents (buy winning the tie that exclusivity anyway rules
out), the signal-switch timestamp policy, and necessary conditions for each
worker-thread start. -/
lemma determine_trades_cases
    (eng : Engine) (pid : String) (period_list : List String)
    (indicators : String → IndicatorSet) (env : DTEnv)
    (eng2 : Engine) (acts : List DTAction)
    (hlive : eng.is_live = true)
    (hdt : determine_trades eng pid period_list indicators env = some (eng2, acts)) :
    ∃ p fl p2,
      get_product_by_product_id eng.products pid = some p ∧
      computeIntent eng.products eng.fiat_currency pid period_list indicators = some fl ∧
      get_product_by_product_id eng2.products pid = some p2 ∧
      p2.buy_flag = fl.1 ∧
      p2.sell_flag = (fl.2 && !fl.1) ∧
      p2.last_signal_switch =
        (if fl.1 = true then (if p.sell_flag then some env.now else p.last_signal_switch)
         else if fl.2 = true then (if p.buy_flag then some env.now else p.last_signal_switch)
         else p.last_signal_switch) ∧
      p2.order_in_progress = p.order_in_progress ∧
      (DTAction.startBuy pid ∈ acts →
        fl.1 = true ∧ p.order_in_progress = false ∧
        ∃ q0, get_quoted_currency_from_product_id env.refreshed pid = some q0 ∧
          p.min_size ≤ round_coin (q0 / (env.ask - p.quote_increment))) ∧
      (DTAction.startSell pid ∈ acts →
        fl.1 = false ∧ fl.2 = true ∧ p.order_in_progress = false ∧
        ∃ c, get_base_currency_from_product_id env.refreshed pid = some c ∧
          p.min_size ≤ c) := by
  unfold determine_trades at hdt
  rw [if_pos hlive] at hdt
  cases hcoin : get_base_currency_from_product_id env.refreshed pid with
  | none => simp [hcoin] at hdt
  | some coin =>
  simp only [hcoin] at hdt
  cases hp : get_product_by_product_id eng.products pid with
  | none => simp [hp] at hdt
  | some product =>
  simp only [hp] at hdt
  cases hfl : computeIntent eng.products eng.fiat_currency pid period_list indicators with
  | none => simp [hfl] at hdt
  | some fl =>
  simp only [hfl] at hdt
  have hpid : product.product_id = pid := by
    have := List.find?_some hp
    simpa using this
  have hpsome : (get_product_by_product_id eng.products pid).isSome := by
    rw [hp]; rfl
  refine ⟨product, fl, ?_⟩
  by_cases h1 : fl.1 = true
  · -- buy branch
    rw [if_pos h1] at hdt
    cases hq0 : get_quoted_currency_from_product_id env.refreshed pid with
    | none => simp [hq0] at hdt
    | some amount0 =>
    simp only [hq0, Option.some.injEq, Prod.mk.injEq] at hdt
    obtain ⟨rfl, rfl⟩ := hdt
    refine ⟨_, rfl, rfl, get_product_updateFirst pid _ (by exact hpid) eng.products hpsome,
      ?_, ?_, ?_, ?_, ?_, ?_⟩
    · simp [h1]
    · simp [h1]
    · simp [h1]
    · rfl
    · intro hmem
      by_cases hc : product.min_size ≤ round_coin (amount0 / (env.ask - product.quote_increment))
          ∧ product.order_in_progress = false
      · exact ⟨h1, hc.2, amount0, rfl, hc.1⟩
      · rw [if_neg hc] at hmem
        exact absurd hmem (by simp)
    · intro hmem
      split at hmem <;> simp at hmem
  · -- not buy
    rw [if_neg h1] at hdt
    rw [Bool.not_eq_true] at h1
    by_cases h2 : fl.2 = true
    · -- sell branch
      rw [if_pos h2] at hdt
      simp only [Option.some.injEq, Prod.mk.injEq] at hdt
      obtain ⟨rfl, rfl⟩ := hdt
      refine ⟨_, rfl, rfl, get_product_updateFirst pid _ (by exact hpid) eng.products hpsome,
        ?_, ?_, ?_, ?_, ?_, ?_⟩
      · simp [h1]
      · simp [h1, h2]
      · simp [h1, h2]
      · rfl
      · intro hmem
        split at hmem <;> simp at hmem
      · intro hmem
        by_cases hc : product.min_size ≤ coin ∧ product.order_in_progress = false
        · exact ⟨h1, h2, hc.2, coin, rfl, hc.1⟩
        · rw [if_neg hc] at hmem
          exact absurd hmem (by simp)
    · -- neither branch
      rw [if_neg h2] at hdt
      rw [Bool.not_eq_true] at h2
      simp only [Option.some.injEq, Prod.mk.injEq] at hdt
      obtain ⟨rfl, rfl⟩ := hdt
      refine ⟨_, rfl, rfl, get_product_updateFirst pid _ (by exact hpid) eng.products hpsome,
        ?_, ?_, ?_, ?_, ?_, ?_⟩
      · simp [h1]
      · simp [h1, h2]
      · simp [h1, h2]
      · rfl
      · intro hmem
        exact absurd hmem (by simp)
      · intro hmem
        exact absurd hmem (by simp)

/-- A lookup through `updateFirst` with a matching replacement id finds the
gated intents through the replacement. -/
lemma determine_trades_gated
    (eng : Engine) (pid : String) (period_list : List String)
    (indicators : String → IndicatorSet) (env : DTEnv)
    (eng2 : Engine) (acts : List DTAction) (cp bf : ProductState)
    (hlive : eng.is_live = true)
    (hpid : pid = "LTC-BTC" ∨ pid = "ETH-BTC")
    (hcp : get_product_by_product_id eng.products
      (pid.take 3 ++ "-" ++ eng.fiat_currency) = some cp)
    (hbf : get_product_by_product_id eng.products
      ("BTC-" ++ eng.fiat_currency) = some bf)
    (hdt : determine_trades eng pid period_list indicators env = some (eng2, acts)) :
    ∃ p2, get_product_by_product_id eng2.products pid = some p2 ∧
      p2.buy_flag = ((evalSignals period_list indicators).1 && cp.buy_flag) ∧
      p2.sell_flag = ((evalSignals period_list indicators).2 && bf.buy_flag) := by
  obtain ⟨p, fl, p2, hp, hfl, hp2, hbuyEq, hsellEq, hlss, hoip, hbm, hsm⟩ :=
    determine_trades_cases eng pid period_list indicators env eng2 acts hlive hdt
  unfold computeIntent at hfl
  rw [if_pos hpid] at hfl
  rw [hcp] at hfl
  simp only [] at hfl
  rw [hbf] at hfl
  simp only [Option.some.injEq] at hfl
  subst hfl
  refine ⟨p2, hp2, hbuyEq, ?_⟩
  rw [hsellEq]
  have hx := evalSignals_exclusive period_list indicators
  cases hb0 : (evalSignals period_list indicators).1 <;>
    cases hs0 : (evalSignals period_list indicators).2 <;>
      simp_all

/-- C4: for the BTC-quoted products LTC-BTC and ETH-BTC in live mode, the
final buy intent (recorded in the post-call buy flag) is the period-combined
buy intent AND the buy flag of the product's own fiat-quoted counterpart
(LTC-fiat resp. ETH-fiat), and the final sell intent is the period-combined
sell intent AND the buy flag of the BTC-fiat product. -/
theorem C4_btc_quoted_gating :
    (∀ (eng : Engine) (period_list : List String)
      (indicators : String → IndicatorSet) (env : DTEnv)
      (eng2 : Engine) (acts : List DTAction) (cp bf : ProductState),
      eng.is_live = true →
      get_product_by_product_id eng.products ("LTC-" ++ eng.fiat_currency) = some cp →
      get_product_by_product_id eng.products ("BTC-" ++ eng.fiat_currency) = some bf →
      determine_trades eng "LTC-BTC" period_list indicators env = some (eng2, acts) →
      ∃ p2, get_product_by_product_id eng2.products "LTC-BTC" = some p2 ∧
        p2.buy_flag = ((evalSignals period_list indicators).1 && cp.buy_flag) ∧
        p2.sell_flag = ((evalSignals period_list indicators).2 && bf.buy_flag)) ∧
    (∀ (eng : Engine) (period_list : List String)
      (indicators : String → IndicatorSet) (env : DTEnv)
      (eng2 : Engine) (acts : List DTAction) (cp bf : ProductState),
      eng.is_live = true →
      get_product_by_product_id eng.products ("ETH-" ++ eng.fiat_currency) = some cp →
      get_product_by_product_id eng.products ("BTC-" ++ eng.fiat_currency) = some bf →
      determine_trades eng "ETH-BTC" period_list indicators env = some (eng2, acts) →
      ∃ p2, get_product_by_product_id eng2.products "ETH-BTC" = some p2 ∧
        p2.buy_flag = ((evalSignals period_list indicators).1 && cp.buy_flag) ∧
        p2.sell_flag = ((evalSignals period_list indicators).2 && bf.buy_flag)) := by
  constructor <;>
    intro eng period_list indicators env eng2 acts cp bf hlive hcp hbf hdt
  · exact determine_trades_gated eng "LTC-BTC" period_list indicators env eng2 acts cp bf
      hlive (Or.inl rfl) hcp hbf hdt
  · exact determine_trades_gated eng "ETH-BTC" period_list indicators env eng2 acts cp bf
      hlive (Or.inr rfl) hcp hbf hdt

/-- C5: `determine_trades` starts a buy worker only when the computed buy
intent holds, the product's `order_in_progress` flag is false, and the
tradable amount (quote balance converted at ask minus one increment,
truncated to 8 decimals) is at least the product minimum; and a sell worker
only under the symmetric sell-side conditions (base balance at least the
minimum). -/
theorem C5_worker_spawn_conditions
    (eng : Engine) (pid : String) (period_list : List String)
    (indicators : String → IndicatorSet) (env : DTEnv)
    (eng2 : Engine) (acts : List DTAction)
    (hlive : eng.is_live = true)
    (hdt : determine_trades eng pid period_list indicators env = some (eng2, acts)) :
    (DTAction.startBuy pid ∈ acts →
      ∃ p fl q0,
        get_product_by_product_id eng.products pid = some p ∧
        computeIntent eng.products eng.fiat_currency pid period_list indicators = some fl ∧
        fl.1 = true ∧
        p.order_in_progress = false ∧
        get_quoted_currency_from_product_id env.refreshed pid = some q0 ∧
        p.min_size ≤ round_coin (q0 / (env.ask - p.quote_increment))) ∧
    (DTAction.startSell pid ∈ acts →
      ∃ p fl c,
        get_product_by_product_id eng.products pid = some p ∧
        computeIntent eng.products eng.fiat_currency pid period_list indicators = some fl ∧
        fl.2 = true ∧ fl.1 = false ∧
        p.order_in_progress = false ∧
        get_base_currency_from_product_id env.refreshed pid = some c ∧
        p.min_size ≤ c) := by
  obtain ⟨p, fl, p2, hp, hfl, hp2, hbuyEq, hsellEq, hlss, hoip, hbm, hsm⟩ :=
    determine_trades_cases eng pid period_list indicators env eng2 acts hlive hdt
  constructor
  · intro hm
    obtain ⟨h1, hoip0, q0, hq0, hle⟩ := hbm hm
    exact ⟨p, fl, q0, hp, hfl, h1, hoip0, hq0, hle⟩
  · intro hm
    obtain ⟨h1, h2, hoip0, c, hc, hle⟩ := hsm hm
    exact ⟨p, fl, c, hp, hfl, h2, h1, hoip0, hc, hle⟩

/-- C9: after a live `determine_trades` call the product's buy and sell
flags are never both true; buy intent records `last_signal_switch` only on a
previous sell state and sets buy=true/sell=false; sell intent does the
symmetric update; with neither intent both flags are cleared. -/
theorem C9_flag_transition_policy
    (eng : Engine) (pid : String) (period_list : List String)
    (indicators : String → IndicatorSet) (env : DTEnv)
    (eng2 : Engine) (acts : List DTAction) (p : ProductState) (fl : Bool × Bool)
    (hlive : eng.is_live = true)
    (hp : get_product_by_product_id eng.products pid = some p)
    (hfl : computeIntent eng.products eng.fiat_currency pid period_list indicators = some fl)
    (hdt : determine_trades eng pid period_list indicators env = some (eng2, acts)) :
    ∃ p2, get_product_by_product_id eng2.products pid = some p2 ∧
      ¬(p2.buy_flag = true ∧ p2.sell_flag = true) ∧
      (fl.1 = true → p2.buy_flag = true ∧ p2.sell_flag = false ∧
        p2.last_signal_switch =
          (if p.sell_flag then some env.now else p.last_signal_switch)) ∧
      (fl.2 = true → p2.sell_flag = true ∧ p2.buy_flag = false ∧
        p2.last_signal_switch =
          (if p.buy_flag then some env.now else p.last_signal_switch)) ∧
      (fl.1 = false → fl.2 = false → p2.buy_flag = false ∧ p2.sell_flag = false ∧
        p2.last_signal_switch = p.last_signal_switch) := by
  obtain ⟨p0, fl0, p2, hp0, hfl0, hp2, hbuyEq, hsellEq, hlss, hoip, hbm, hsm⟩ :=
    determine_trades_cases eng pid period_list indicators env eng2 acts hlive hdt
  rw [hp] at hp0
  rw [hfl] at hfl0
  obtain rfl := Option.some.inj hp0
  obtain rfl := Option.some.inj hfl0
  have hx := computeIntent_exclusive eng.products eng.fiat_currency pid period_list
    indicators fl hfl
  refine ⟨p2, hp2, ?_, ?_, ?_, ?_⟩
  · rintro ⟨hb, hs⟩
    rw [hbuyEq] at hb
    rw [hsellEq, hb] at hs
    simp at hs
  · intro h1
    refine ⟨by rw [hbuyEq, h1], by rw [hsellEq, h1]; simp, ?_⟩
    rw [hlss, if_pos h1]
  · intro h2
    have h1 : fl.1 = false := by
      cases hb : fl.1
      · rfl
      · exact absurd ⟨hb, h2⟩ hx
    refine ⟨by rw [hsellEq, h1, h2]; rfl, by rw [hbuyEq, h1], ?_⟩
    rw [hlss]
    simp [h1, h2]
  · intro h1 h2
    refine ⟨by rw [hbuyEq, h1], by rw [hsellEq, h2]; simp, ?_⟩
    rw [hlss]
    simp [h1, h2]

/-- C10: with `is_live = false`, `determine_trades` performs only the balance
refresh — every product (flags, open orders, signal-switch timestamp)
is left untouched and no worker thread is started. -/
theorem C10_simulated_mode_frame
    (eng : Engine) (pid : String) (period_list : List String)
    (indicators : String → IndicatorSet) (env : DTEnv)
    (hsim : eng.is_live = false) :
    determine_trades eng pid period_list indicators env =
      some ({ eng with balances := env.refreshed }, []) := by
  unfold determine_trades
  rw [if_neg (by simp [hsim])]

/-- Balance snapshot used by the concrete evaluations. -/
def bal0 : Balances := { btc := 1, bch := 0, eth := 2, ltc := 3, fiat := 100 }

/-- Indicators on which every period signals buy (trending, OBV above EMA). -/
def indBuyAll : String → IndicatorSet :=
  fun _ => { adx := 30, obv := 10, obv_ema := 5, stoch_slowk := 0, stoch_slowd := 0 }

/-- Indicators on which every period signals sell (trending, OBV below EMA). -/
def indSellAll : String → IndicatorSet :=
  fun _ => { adx := 30, obv := 1, obv_ema := 5, stoch_slowk := 0, stoch_slowd := 0 }

/-- Indicators signalling neither buy nor sell (trending, OBV equal to EMA). -/
def indFlat : String → IndicatorSet :=
  fun _ => { adx := 30, obv := 5, obv_ema := 5, stoch_slowk := 0, stoch_slowd := 0 }

def pBTCUSD : ProductState :=
  { product_id := "BTC-USD", min_size := 1, quote_increment := 1,
    buy_flag := false, sell_flag := false, order_in_progress := false,
    open_orders := [], last_signal_switch := none }

def pLTCUSD : ProductState :=
  { product_id := "LTC-USD", min_size := 1, quote_increment := 1,
    buy_flag := true, sell_flag := false, order_in_progress := false,
    open_orders := [], last_signal_switch := none }

def pLTCBTC : ProductState :=
  { product_id := "LTC-BTC", min_size := 1, quote_increment := 1,
    buy_flag := false, sell_flag := false, order_in_progress := false,
    open_orders := [], last_signal_switch := none }

/-- Engine with the BTC-fiat buy flag off but the LTC-fiat buy flag on. -/
def engC3 : Engine :=
  { products := [pBTCUSD, pLTCUSD, pLTCBTC], fiat_currency := "USD",
    is_live := true, balances := bal0 }

def envC3 : DTEnv := { refreshed := bal0, ask := 12, now := 7 }

/-- `pBTCUSD` after a sell transition. -/
def pBTCUSDsell : ProductState := { pBTCUSD with sell_flag := true }

/-- `engC3` after a sell transition on BTC-USD. -/
def engC3sell : Engine :=
  { engC3 with products := [pBTCUSDsell, pLTCUSD, pLTCBTC] }

/-- `pLTCUSD` with its buy flag off. -/
def pLTCUSDoff : ProductState := { pLTCUSD with buy_flag := false }

/-- Engine with both the BTC-fiat and LTC-fiat buy flags off. -/
def engC3b : Engine :=
  { engC3 with products := [pBTCUSD, pLTCUSDoff, pLTCBTC] }

/-- `engC3` in simulated mode. -/
def engSim : Engine := { engC3 with is_live := false }

set_option maxRecDepth 20000

/-- C3 counterexample: in `engC3` the BTC-fiat product's buy flag is false,
yet with every period signalling buy, `determine_trades` on LTC-BTC still
produces buy intent (the post-call buy flag is true, because the code gates
buy by the LTC-fiat counterpart, not by BTC-fiat). -/
theorem C3_counterexample :
    (get_product_by_product_id engC3.products ("BTC-" ++ engC3.fiat_currency)).map
        (fun p => p.buy_flag) = some false ∧
    (determine_trades engC3 "LTC-BTC" ["15min"] indBuyAll envC3).map
        (fun r => (get_product_by_product_id r.1.products "LTC-BTC").map
          (fun p => p.buy_flag)) = some (some true) := by
  exact ⟨by decide, by decide⟩

/-- C3 (amended): for LTC-BTC in live mode, if the LTC-fiat counterpart's
buy flag is false then the resulting buy intent is false — the post-call buy
flag is false and no buy worker is started — even when every period's own
indicator conditions signal buy (the BTC-fiat buy flag gates only the sell
intent). -/
theorem C3_ltc_gated_by_ltc_fiat
    (eng : Engine) (period_list : List String) (indicators : String → IndicatorSet)
    (env : DTEnv) (eng2 : Engine) (acts : List DTAction) (cp : ProductState)
    (hlive : eng.is_live = true)
    (hcp : get_product_by_product_id eng.products
      ("LTC-" ++ eng.fiat_currency) = some cp)
    (hoff : cp.buy_flag = false)
    (hdt : determine_trades eng "LTC-BTC" period_list indicators env = some (eng2, acts)) :
    (∃ p2, get_product_by_product_id eng2.products "LTC-BTC" = some p2 ∧
      p2.buy_flag = false) ∧
    DTAction.startBuy "LTC-BTC" ∉ acts := by
  obtain ⟨p, fl, p2, hp, hfl, hp2, hbuyEq, hsellEq, hlss, hoip, hbm, hsm⟩ :=
    determine_trades_cases eng "LTC-BTC" period_list indicators env eng2 acts hlive hdt
  have hfl1 : fl.1 = false := by
    unfold computeIntent at hfl
    rw [if_pos (Or.inl rfl)] at hfl
    rw [show ("LTC-BTC".take 3 ++ "-" ++ eng.fiat_currency) =
      "LTC-" ++ eng.fiat_currency from rfl] at hfl
    rw [hcp] at hfl
    simp only [] at hfl
    cases hbf : get_product_by_product_id eng.products ("BTC-" ++ eng.fiat_currency) with
    | none => rw [hbf] at hfl; simp at hfl
    | some bf =>
      rw [hbf] at hfl
      simp only [Option.some.injEq] at hfl
      subst hfl
      simp [hoff]
  constructor
  · exact ⟨p2, hp2, by rw [hbuyEq, hfl1]⟩
  · intro hm
    exact absurd (hbm hm).1 (by simp [hfl1])

/-- C7: for BTC-USD with minimum size 0.001, quote increment 0.01, best ask
50000 and 100 fiat available, `place_buy` at partial 1.0 computes limit
price 49999.99 and size `round_coin(100 / 49999.99) = 0.002`, and since
0.002 is at least the minimum size it places a post-only limit buy order at
exactly that price and size. -/
theorem C7_place_buy_concrete :
    place_buy "BTC-USD" (1/100) (1/1000) 100 50000 1 respOpen =
      (respOpen,
       [Ev.act (ExchAction.limitOrder "BTC-USD" Side.buy (1/500) (4999999/100) true)]) ∧
    (50000 : ℚ) - 1/100 = 4999999/100 ∧
    round_coin (100 / (4999999/100)) = 1/500 ∧
    ((1/1000 : ℚ) ≤ 1/500) := by
  refine ⟨by norm_num [place_buy, round_coin, quantizeDown], by norm_num,
    by norm_num [round_coin, quantizeDown], by norm_num⟩

/-- Witness for C4 at a concrete engine: with every period signalling sell
and the BTC-fiat buy flag off, the LTC-BTC post-call flags are both false. -/
theorem C4_btc_quoted_gating_witness :
    (get_product_by_product_id engC3.products "LTC-BTC").map
      (fun p => (p.buy_flag, p.sell_flag)) = some (false, false) := by
  obtain ⟨p2, h1, h2, h3⟩ := C4_btc_quoted_gating.1 engC3 ["15min"] indSellAll envC3
    engC3 [] pLTCUSD pBTCUSD rfl (by decide) (by decide) (by decide)
  rw [h1]
  have hb : (evalSignals ["15min"] indSellAll).1 = false := by decide
  have hs : pBTCUSD.buy_flag = false := rfl
  simp [h2, h3, hb, hs]

/-- Witness for C5 at a concrete engine: the sell worker started for BTC-USD
implies the spawn conditions, which evaluate to the concrete facts below. -/
theorem C5_worker_spawn_witness :
    pBTCUSD.order_in_progress = false ∧ pBTCUSD.min_size ≤ bal0.btc := by
  obtain ⟨-, hsell⟩ := C5_worker_spawn_conditions engC3 "BTC-USD" ["15min"] indSellAll
    envC3 engC3sell [DTAction.startSell "BTC-USD"] rfl (by decide)
  obtain ⟨p, fl, c, hp, hfl, hf2, hf1, hoip, hc, hle⟩ := hsell (by decide)
  have hpeq : p = pBTCUSD := by
    have h2 : get_product_by_product_id engC3.products "BTC-USD" = some pBTCUSD := by decide
    exact Option.some.inj (hp.symm.trans h2)
  have hceq : c = bal0.btc := by
    have h2 : get_base_currency_from_product_id envC3.refreshed "BTC-USD" = some bal0.btc := by
      decide
    exact Option.some.inj (hc.symm.trans h2)
  subst hpeq
  subst hceq
  exact ⟨hoip, hle⟩

/-- Witness for C9 at a concrete engine: flat indicators leave BTC-USD with
mutually exclusive flags and an unchanged signal-switch timestamp. -/
theorem C9_flag_transition_witness :
    (get_product_by_product_id engC3.products "BTC-USD").map
      (fun p => p.buy_flag && p.sell_flag) = some false := by
  obtain ⟨p2, h1, h2, -⟩ := C9_flag_transition_policy engC3 "BTC-USD" ["15min"] indFlat
    envC3 engC3 [] pBTCUSD (false, false) rfl (by decide) (by decide) (by decide)
  rw [h1]
  have : (p2.buy_flag && p2.sell_flag) = false := by
    cases hb : p2.buy_flag <;> cases hs : p2.sell_flag <;> simp_all
  simp [this]

/-- Witness for C3's amended statement at a concrete engine. -/
theorem C3_ltc_gated_witness :
    (get_product_by_product_id engC3b.products "LTC-BTC").map
      (fun p => p.buy_flag) = some false := by
  obtain ⟨⟨p2, h1, h2⟩, -⟩ := C3_ltc_gated_by_ltc_fiat engC3b ["15min"] indBuyAll envC3
    engC3b [] pLTCUSDoff rfl (by decide) rfl (by decide)
  rw [h1]
  simp [h2]

/-- Witness for C10 at a concrete simulated-mode engine. -/
theorem C10_simulated_mode_witness :
    determine_trades engSim "BTC-USD" ["15min"] indBuyAll envC3 =
      some ({ engSim with balances := envC3.refreshed }, []) :=
  C10_simulated_mode_frame engSim "BTC-USD" ["15min"] indBuyAll envC3 rfl

/-- Environment of one `TradeEngine.buy` chase, indexed by loop iteration:
the flag and order book and balances are written concurrently by the signal
evaluator, the websocket book and the order poller, so each iteration
observes fresh values.  `placeResp` is the exchange response to the order
placed during iteration `i` (at most one per iteration), `raises i` injects
an unexpected exception into iteration `i`'s body, `pollGate` models the
one-second `get_order` refresh gate, and `getOrderResp i = none` models a
`ValueError` from the status refresh (caught; `ret` keeps its old value). -/
structure BuyEnv where
  buyFlag : Nat → Bool
  ask : Nat → ℚ
  quoted : Nat → ℚ
  openIds : Nat → List Nat
  placeResp : Nat → OrderResp
  initResp : OrderResp
  raises : Nat → Bool
  raisesInit : Bool
  pollGate : Nat → Bool
  getOrderResp : Nat → Option OrderResp

/-- The product parameters a chase reads, plus the engine's `max_slippage`. -/
structure ChaseParams where
  product_id : String
  quote_increment : ℚ
  min_size : ℚ
  max_slippage : ℚ

/-- Loop-carried state of a chase: the last order response `ret`, the
remembered limit price (`bid` in `buy`, `ask` in `sell`; `none` when the
response carried no price), and the last observed tradable amount. -/
structure ChaseState where
  ret : OrderResp
  price : Option ℚ
  amount : ℚ

/-- How a chase run ended: the loop condition went false (`normal`), the
slippage escalation returned (`escalated`), an exception was caught
(`excepted`), or the model ran out of fuel while the real loop would keep
polling (`outOfFuel`). -/
inductive Outcome
  | normal
  | escalated
  | excepted
  | outOfFuel
deriving DecidableEq

/-- Result of one loop iteration: stop with an outcome, or continue. -/
inductive IterOut
  | stop (out : Outcome) (evs : List Ev)
  | next (s : ChaseState) (evs : List Ev)

/-- One iteration of the `while` loop of `TradeEngine.buy` (lines 140-166). -/
def buyIter (env : BuyEnv) (p : ChaseParams) (starting : ℚ) (i : Nat)
    (s : ChaseState) : IterOut :=
  -- line 140: while buy_flag and (amount >= min_size or open orders remain)
  if ¬(env.buyFlag i = true ∧ (p.min_size ≤ s.amount ∨ 0 < (env.openIds i).length)) then
    IterOut.stop Outcome.normal []
  -- an unexpected exception in this iteration (caught at lines 169-171)
  else if env.raises i = true then
    IterOut.stop Outcome.excepted []
  -- line 141: slippage check against the starting reference price
  else if p.max_slippage < ((env.ask i - p.quote_increment) / starting - 1) * 100 then
    -- lines 142-145: cancel all, market order for the full quote funds,
    -- clear the flag, return
    IterOut.stop Outcome.escalated
      [Ev.act (ExchAction.cancelAll p.product_id),
       Ev.act (ExchAction.marketBuy p.product_id (env.quoted i)),
       Ev.setOip false]
  else
    -- line 146: order health check
    let health : Bool := (s.ret.status == some "rejected") || (s.ret.status == some "done")
      || (s.ret.message == some "NotFound")
    -- line 149: stale-price check (`not bid or bid < ask - increment`)
    let stale : Bool :=
      match s.price with
      | none => true
      | some b => decide (b < env.ask i - p.quote_increment)
    let step : OrderResp × Option ℚ × List Ev :=
      if health then
        let pr := place_buy p.product_id p.quote_increment p.min_size
          (env.quoted i) (env.ask i) (1/2) (env.placeResp i)
        (pr.1, pr.1.price, pr.2)
      else if stale then
        -- lines 150-153: replace at 100% when an order is open, else 50%
        let pr :=
          if 0 < (env.openIds i).length then
            place_buy p.product_id p.quote_increment p.min_size
              (env.quoted i) (env.ask i) 1 (env.placeResp i)
          else
            place_buy p.product_id p.quote_increment p.min_size
              (env.quoted i) (env.ask i) (1/2) (env.placeResp i)
        -- lines 154-156: cancel every other open order
        let cancels := ((env.openIds i).filter (fun oid => decide (pr.1.oid ≠ some oid))).map
          (fun oid => Ev.act (ExchAction.cancelOrder oid))
        (pr.1, pr.1.price, pr.2 ++ cancels)
      else (s.ret, s.price, ([] : List Ev))
    -- lines 158-164: one-second-gated status refresh, ValueError swallowed
    let refresh : OrderResp × List Ev :=
      match step.1.oid with
      | some oid =>
        if env.pollGate i = true then
          match env.getOrderResp i with
          | some r2 => (r2, [Ev.act (ExchAction.getOrder oid)])
          | none => (step.1, [Ev.act (ExchAction.getOrder oid)])
        else (step.1, ([] : List Ev))
      | none => (step.1, ([] : List Ev))
    -- line 165: re-read the tradable amount
    IterOut.next { ret := refresh.1, price := step.2.1, amount := env.quoted i }
      (step.2.2 ++ refresh.2)

/-- The `while` loop of `TradeEngine.buy`, fuelled. -/
def buyLoop (env : BuyEnv) (p : ChaseParams) (starting : ℚ) :
    Nat → Nat → ChaseState → Outcome × List Ev
  | 0, _, _ => (Outcome.outOfFuel, [])
  | fuel+1, i, s =>
    match buyIter env p starting i s with
    | IterOut.stop out evs => (out, evs)
    | IterOut.next s2 evs =>
      let r := buyLoop env p starting fuel (i+1) s2
      (r.1, evs ++ r.2)

/-- Result of a whole chase: outcome plus the full event trace. -/
structure ChaseResult where
  outcome : Outcome
  events : List Ev

/-- The common post-loop epilogue of `buy` and `sell`: after a normal loop
exit, lines 167 and 172-173 run (two cancel-alls, clear the flag); after a
caught exception, lines 170 and 172-173 run; an escalated return skips the
epilogue entirely (its events already end with the flag clear). -/
def chaseFinish (pid : String) (pre : List Ev) : Outcome × List Ev → ChaseResult
  | (Outcome.normal, evs) =>
    { outcome := Outcome.normal,
      events := pre ++ evs ++ [Ev.act (ExchAction.cancelAll pid),
        Ev.act (ExchAction.cancelAll pid), Ev.setOip false] }
  | (Outcome.excepted, evs) =>
    { outcome := Outcome.excepted,
      events := pre ++ evs ++ [Ev.setOip false, Ev.act (ExchAction.cancelAll pid),
        Ev.setOip false] }
  | (out, evs) => { outcome := out, events := pre ++ evs }

/-- `TradeEngine.buy` (lines 132-173): set `order_in_progress`, record the
starting reference price, place an initial 50% order, run the chase loop,
then the epilogue.  `raisesInit` injects an exception into the pre-loop part
of the `try` block. -/
def buy (env : BuyEnv) (p : ChaseParams) (fuel : Nat) : ChaseResult :=
  if env.raisesInit = true then
    { outcome := Outcome.excepted,
      events := [Ev.setOip true, Ev.setOip false,
        Ev.act (ExchAction.cancelAll p.product_id), Ev.setOip false] }
  else
    let pr := place_buy p.product_id p.quote_increment p.min_size (env.quoted 0)
      (env.ask 0) (1/2) env.initResp
    chaseFinish p.product_id ([Ev.setOip true] ++ pr.2)
      (buyLoop env p (env.ask 0 - p.quote_increment) fuel 1
        { ret := pr.1, price := pr.1.price, amount := env.quoted 0 })

/-- Environment of one `TradeEngine.sell` chase; see `BuyEnv`. -/
structure SellEnv where
  sellFlag : Nat → Bool
  bid : Nat → ℚ
  base : Nat → ℚ
  openIds : Nat → List Nat
  placeResp : Nat → OrderResp
  initResp : OrderResp
  raises : Nat → Bool
  raisesInit : Bool
  pollGate : Nat → Bool
  getOrderResp : Nat → Option OrderResp

/-- One iteration of the `while` loop of `TradeEngine.sell` (lines 200-226). -/
def sellIter (env : SellEnv) (p : ChaseParams) (starting : ℚ) (i : Nat)
    (s : ChaseState) : IterOut :=
  -- line 200: while sell_flag and (amount >= min_size or open orders remain)
  if ¬(env.sellFlag i = true ∧ (p.min_size ≤ s.amount ∨ 0 < (env.openIds i).length)) then
    IterOut.stop Outcome.normal []
  else if env.raises i = true then
    IterOut.stop Outcome.excepted []
  -- line 201: slippage check against the starting reference price
  else if p.max_slippage < (1 - (env.bid i + p.quote_increment) / starting) * 100 then
    -- lines 202-205: cancel all, market order for the full base size,
    -- clear the flag, return
    IterOut.stop Outcome.escalated
      [Ev.act (ExchAction.cancelAll p.product_id),
       Ev.act (ExchAction.marketSell p.product_id (env.base i)),
       Ev.setOip false]
  else
    -- line 206: order health check
    let health : Bool := (s.ret.status == some "rejected") || (s.ret.status == some "done")
      || (s.ret.message == some "NotFound")
    -- line 209: stale-price check (`not ask or ask > bid + increment`)
    let stale : Bool :=
      match s.price with
      | none => true
      | some a => decide (env.bid i + p.quote_increment < a)
    let step : OrderResp × Option ℚ × List Ev :=
      if health then
        let pr := place_sell p.product_id p.quote_increment p.min_size
          (env.base i) (env.bid i) (1/2) (env.placeResp i)
        (pr.1, pr.1.price, pr.2)
      else if stale then
        let pr :=
          if 0 < (env.openIds i).length then
            place_sell p.product_id p.quote_increment p.min_size
              (env.base i) (env.bid i) 1 (env.placeResp i)
          else
            place_sell p.product_id p.quote_increment p.min_size
              (env.base i) (env.bid i) (1/2) (env.placeResp i)
        let cancels := ((env.openIds i).filter (fun oid => decide (pr.1.oid ≠ some oid))).map
          (fun oid => Ev.act (ExchAction.cancelOrder oid))
        (pr.1, pr.1.price, pr.2 ++ cancels)
      else (s.ret, s.price, ([] : List Ev))
    let refresh : OrderResp × List Ev :=
      match step.1.oid with
      | some oid =>
        if env.pollGate i = true then
          match env.getOrderResp i with
          | some r2 => (r2, [Ev.act (ExchAction.getOrder oid)])
          | none => (step.1, [Ev.act (ExchAction.getOrder oid)])
        else (step.1, ([] : List Ev))
      | none => (step.1, ([] : List Ev))
    -- line 225: re-read the tradable amount
    IterOut.next { ret := refresh.1, price := step.2.1, amount := env.base i }
      (step.2.2 ++ refresh.2)

/-- The `while` loop of `TradeEngine.sell`, fuelled. -/
def sellLoop (env : SellEnv) (p : ChaseParams) (starting : ℚ) :
    Nat → Nat → ChaseState → Outcome × List Ev
  | 0, _, _ => (Outcome.outOfFuel, [])
  | fuel+1, i, s =>
    match sellIter env p starting i s with
    | IterOut.stop out evs => (out, evs)
    | IterOut.next s2 evs =>
      let r := sellLoop env p starting fuel (i+1) s2
      (r.1, evs ++ r.2)

/-- `TradeEngine.sell` (lines 192-233). -/
def sell (env : SellEnv) (p : ChaseParams) (fuel : Nat) : ChaseResult :=
  if env.raisesInit = true then
    { outcome := Outcome.excepted,
      events := [Ev.setOip true, Ev.setOip false,
        Ev.act (ExchAction.cancelAll p.product_id), Ev.setOip false] }
  else
    let pr := place_sell p.product_id p.quote_increment p.min_size (env.base 0)
      (env.bid 0) (1/2) env.initResp
    chaseFinish p.product_id ([Ev.setOip true] ++ pr.2)
      (sellLoop env p (env.bid 0 + p.quote_increment) fuel 1
        { ret := pr.1, price := pr.1.price, amount := env.base 0 })

lemma buyIter_stop_escalated (env : BuyEnv) (p : ChaseParams) (starting : ℚ)
    (i : Nat) (s : ChaseState) (evs : List Ev)
    (h : buyIter env p starting i s = IterOut.stop Outcome.escalated evs) :
    evs = [Ev.act (ExchAction.cancelAll p.product_id),
           Ev.act (ExchAction.marketBuy p.product_id (env.quoted i)),
           Ev.setOip false] := by
  unfold buyIter at h
  split at h
  · simp at h
  · split at h
    · simp at h
    · split at h
      · simp only [IterOut.stop.injEq] at h
        exact h.2.symm
      · simp at h

lemma sellIter_stop_escalated (env : SellEnv) (p : ChaseParams) (starting : ℚ)
    (i : Nat) (s : ChaseState) (evs : List Ev)
    (h : sellIter env p starting i s = IterOut.stop Outcome.escalated evs) :
    evs = [Ev.act (ExchAction.cancelAll p.product_id),
           Ev.act (ExchAction.marketSell p.product_id (env.base i)),
           Ev.setOip false] := by
  unfold sellIter at h
  split at h
  · simp at h
  · split at h
    · simp at h
    · split at h
      · simp only [IterOut.stop.injEq] at h
        exact h.2.symm
      · simp at h

/-- When the buy loop escalates, its trace ends by clearing the flag and
contains the cancel-all. -/
lemma buyLoop_escalated (env : BuyEnv) (p : ChaseParams) (starting : ℚ) :
    ∀ (fuel i : Nat) (s : ChaseState),
      (buyLoop env p starting fuel i s).1 = Outcome.escalated →
      (∀ init, ((buyLoop env p starting fuel i s).2).foldl oipUpd init = some false) ∧
      Ev.act (ExchAction.cancelAll p.product_id) ∈ (buyLoop env p starting fuel i s).2 := by
  intro fuel
  induction fuel with
  | zero =>
    intro i s h
    simp [buyLoop] at h
  | succ fuel ih =>
    intro i s h
    cases hit : buyIter env p starting i s with
    | stop out evs =>
      simp only [buyLoop, hit] at h ⊢
      subst h
      have hevs := buyIter_stop_escalated env p starting i s evs hit
      subst hevs
      exact ⟨fun init => rfl, by simp⟩
    | next s2 evs =>
      simp only [buyLoop, hit] at h ⊢
      obtain ⟨hfold, hmem⟩ := ih (i+1) s2 h
      constructor
      · intro init
        rw [List.foldl_append]
        exact hfold _
      · exact List.mem_append_right _ hmem

/-- When the sell loop escalates, its trace ends by clearing the flag and
contains the cancel-all. -/
lemma sellLoop_escalated (env : SellEnv) (p : ChaseParams) (starting : ℚ) :
    ∀ (fuel i : Nat) (s : ChaseState),
      (sellLoop env p starting fuel i s).1 = Outcome.escalated →
      (∀ init, ((sellLoop env p starting fuel i s).2).foldl oipUpd init = some false) ∧
      Ev.act (ExchAction.cancelAll p.product_id) ∈ (sellLoop env p starting fuel i s).2 := by
  intro fuel
  induction fuel with
  | zero =>
    intro i s h
    simp [sellLoop] at h
  | succ fuel ih =>
    intro i s h
    cases hit : sellIter env p starting i s with
    | stop out evs =>
      simp only [sellLoop, hit] at h ⊢
      subst h
      have hevs := sellIter_stop_escalated env p starting i s evs hit
      subst hevs
      exact ⟨fun init => rfl, by simp⟩
    | next s2 evs =>
      simp only [sellLoop, hit] at h ⊢
      obtain ⟨hfold, hmem⟩ := ih (i+1) s2 h
      constructor
      · intro init
        rw [List.foldl_append]
        exact hfold _
      · exact List.mem_append_right _ hmem

lemma chaseFinish_outcome (pid : String) (pre : List Ev) (r : Outcome × List Ev) :
    (chaseFinish pid pre r).outcome = r.1 := by
  obtain ⟨out, evs⟩ := r
  cases out <;> rfl

/-- The epilogue guarantees a final flag clear and a cancel-all for every
terminating outcome. -/
lemma chaseFinish_post (pid : String) (pre : List Ev) (r : Outcome × List Ev)
    (hesc : r.1 = Outcome.escalated →
      (∀ init, r.2.foldl oipUpd init = some false) ∧
        Ev.act (ExchAction.cancelAll pid) ∈ r.2)
    (hout : r.1 ≠ Outcome.outOfFuel) :
    lastOip (chaseFinish pid pre r).events = some false ∧
      Ev.act (ExchAction.cancelAll pid) ∈ (chaseFinish pid pre r).events := by
  obtain ⟨out, evs⟩ := r
  cases out with
  | normal =>
    constructor
    · simp [chaseFinish, lastOip, List.foldl_append, oipUpd]
    · simp [chaseFinish]
  | excepted =>
    constructor
    · simp [chaseFinish, lastOip, List.foldl_append, oipUpd]
    · simp [chaseFinish]
  | escalated =>
    obtain ⟨hfold, hmem⟩ := hesc rfl
    constructor
    · simp only [chaseFinish, lastOip, List.foldl_append]
      exact hfold _
    · simp [chaseFinish, hmem]
  | outOfFuel => exact absurd rfl hout

/-- C1: in both the buy and the sell chase, an iteration whose loop condition
holds and that observes the slippage bound exceeded (buy:
`((ask - increment)/starting - 1) * 100 > max_slippage`; sell:
`(1 - (bid + increment)/starting) * 100 > max_slippage`) cancels all of the
product's orders, places a market order for the full remaining tradable
amount (quote funds for buy, base size for sell), clears
`order_in_progress`, and returns without placing any further limit order. -/
theorem C1_slippage_escalation :
    (∀ (env : BuyEnv) (p : ChaseParams) (starting : ℚ) (fuel i : Nat) (s : ChaseState),
      (env.buyFlag i = true ∧ (p.min_size ≤ s.amount ∨ 0 < (env.openIds i).length)) →
      env.raises i = false →
      p.max_slippage < ((env.ask i - p.quote_increment) / starting - 1) * 100 →
      buyLoop env p starting (fuel+1) i s =
        (Outcome.escalated,
         [Ev.act (ExchAction.cancelAll p.product_id),
          Ev.act (ExchAction.marketBuy p.product_id (env.quoted i)),
          Ev.setOip false])) ∧
    (∀ (env : SellEnv) (p : ChaseParams) (starting : ℚ) (fuel i : Nat) (s : ChaseState),
      (env.sellFlag i = true ∧ (p.min_size ≤ s.amount ∨ 0 < (env.openIds i).length)) →
      env.raises i = false →
      p.max_slippage < (1 - (env.bid i + p.quote_increment) / starting) * 100 →
      sellLoop env p starting (fuel+1) i s =
        (Outcome.escalated,
         [Ev.act (ExchAction.cancelAll p.product_id),
          Ev.act (ExchAction.marketSell p.product_id (env.base i)),
          Ev.setOip false])) := by
  constructor
  · intro env p starting fuel i s hcond hraise hslip
    have hiter : buyIter env p starting i s = IterOut.stop Outcome.escalated
        [Ev.act (ExchAction.cancelAll p.product_id),
         Ev.act (ExchAction.marketBuy p.product_id (env.quoted i)),
         Ev.setOip false] := by
      unfold buyIter
      rw [if_neg (not_not_intro hcond), if_neg (by simp [hraise]), if_pos hslip]
    simp [buyLoop, hiter]
  · intro env p starting fuel i s hcond hraise hslip
    have hiter : sellIter env p starting i s = IterOut.stop Outcome.escalated
        [Ev.act (ExchAction.cancelAll p.product_id),
         Ev.act (ExchAction.marketSell p.product_id (env.base i)),
         Ev.setOip false] := by
      unfold sellIter
      rw [if_neg (not_not_intro hcond), if_neg (by simp [hraise]), if_pos hslip]
    simp [sellLoop, hiter]

/-- C6: whenever a buy or sell chase terminates — loop condition false,
slippage escalation, or a caught exception — the product's
`order_in_progress` flag is false at termination (the last write to it in
the trace is `false`) and a cancel-all for the product has been issued; the
chase never returns with the flag left true. -/
theorem C6_chase_cleanup :
    (∀ (env : BuyEnv) (p : ChaseParams) (fuel : Nat),
      (buy env p fuel).outcome ≠ Outcome.outOfFuel →
      lastOip (buy env p fuel).events = some false ∧
        Ev.act (ExchAction.cancelAll p.product_id) ∈ (buy env p fuel).events) ∧
    (∀ (env : SellEnv) (p : ChaseParams) (fuel : Nat),
      (sell env p fuel).outcome ≠ Outcome.outOfFuel →
      lastOip (sell env p fuel).events = some false ∧
        Ev.act (ExchAction.cancelAll p.product_id) ∈ (sell env p fuel).events) := by
  constructor
  · intro env p fuel hout
    unfold buy at hout ⊢
    by_cases hinit : env.raisesInit = true
    · rw [if_pos hinit]
      exact ⟨rfl, by simp⟩
    · rw [if_neg hinit] at hout ⊢
      simp only [] at hout ⊢
      apply chaseFinish_post
      · intro hesc
        exact buyLoop_escalated env p (env.ask 0 - p.quote_increment) fuel 1 _ hesc
      · rw [← chaseFinish_outcome p.product_id]
        exact hout
  · intro env p fuel hout
    unfold sell at hout ⊢
    by_cases hinit : env.raisesInit = true
    · rw [if_pos hinit]
      exact ⟨rfl, by simp⟩
    · rw [if_neg hinit] at hout ⊢
      simp only [] at hout ⊢
      apply chaseFinish_post
      · intro hesc
        exact sellLoop_escalated env p (env.bid 0 + p.quote_increment) fuel 1 _ hesc
      · rw [← chaseFinish_outcome p.product_id]
        exact hout

/-- Concrete chase parameters for the witnesses. -/
def pW : ChaseParams :=
  { product_id := "BTC-USD", quote_increment := 1, min_size := 1, max_slippage := 1 }

/-- Concrete loop state for the witnesses. -/
def sW : ChaseState := { ret := respOpen, price := some 2, amount := 5 }

/-- Buy environment whose iteration 1 observes a slippage breach. -/
def envB1 : BuyEnv :=
  { buyFlag := fun _ => true, ask := fun _ => 3, quoted := fun _ => 5,
    openIds := fun _ => [], placeResp := fun _ => respOpen, initResp := respOpen,
    raises := fun _ => false, raisesInit := false, pollGate := fun _ => false,
    getOrderResp := fun _ => none }

/-- Sell environment whose iteration 1 observes a slippage breach. -/
def envS1 : SellEnv :=
  { sellFlag := fun _ => true, bid := fun _ => 1, base := fun _ => 4,
    openIds := fun _ => [], placeResp := fun _ => respOpen, initResp := respOpen,
    raises := fun _ => false, raisesInit := false, pollGate := fun _ => false,
    getOrderResp := fun _ => none }

/-- Witness for C1: with starting reference price 1, ask 3 and increment 1
the buy-side adverse move is 100 percent, far above the 1 percent bound, so
the loop escalates exactly as C1 states; symmetrically for sell. -/
theorem C1_slippage_witness :
    buyLoop envB1 pW 1 1 1 sW =
      (Outcome.escalated,
       [Ev.act (ExchAction.cancelAll "BTC-USD"),
        Ev.act (ExchAction.marketBuy "BTC-USD" 5),
        Ev.setOip false]) ∧
    sellLoop envS1 pW 10 1 1 sW =
      (Outcome.escalated,
       [Ev.act (ExchAction.cancelAll "BTC-USD"),
        Ev.act (ExchAction.marketSell "BTC-USD" 4),
        Ev.setOip false]) := by
  constructor
  · exact C1_slippage_escalation.1 envB1 pW 1 0 1 sW
      ⟨rfl, Or.inl (by norm_num [pW, sW])⟩ rfl (by norm_num [envB1, pW])
  · exact C1_slippage_escalation.2 envS1 pW 10 0 1 sW
      ⟨rfl, Or.inl (by norm_num [pW, sW])⟩ rfl (by norm_num [envS1, pW])

/-- Buy environment that raises before the loop. -/
def envBW : BuyEnv :=
  { envB1 with raisesInit := true }

/-- Sell environment that raises before the loop. -/
def envSW : SellEnv :=
  { envS1 with raisesInit := true }

/-- Witness for C6 at terminating chase runs. -/
theorem C6_chase_witness :
    (buy envBW pW 1).outcome ≠ Outcome.outOfFuel ∧
    lastOip (buy envBW pW 1).events = some false ∧
    Ev.act (ExchAction.cancelAll "BTC-USD") ∈ (buy envBW pW 1).events ∧
    (sell envSW pW 1).outcome ≠ Outcome.outOfFuel ∧
    lastOip (sell envSW pW 1).events = some false ∧
    Ev.act (ExchAction.cancelAll "BTC-USD") ∈ (sell envSW pW 1).events := by
  have hb : (buy envBW pW 1).outcome ≠ Outcome.outOfFuel := by decide
  have hs : (sell envSW pW 1).outcome ≠ Outcome.outOfFuel := by decide
  obtain ⟨h1, h2⟩ := C6_chase_cleanup.1 envBW pW 1 hb
  obtain ⟨h3, h4⟩ := C6_chase_cleanup.2 envSW pW 1 hs
  exact ⟨hb, h1, h2, hs, h3, h4⟩

/-- Witness for C8. -/
theorem C8_rounding_witness :
    round_fiat 5 ≤ 5 ∧ round_coin 7 ≤ 7 :=
  ⟨(C8_rounding_truncates.1 5 (by decide)).2, (C8_rounding_truncates.2.1 7 (by decide)).2⟩

end CbproTrader
